import Mathlib

/- Verification development for pdb_viewer, a dumper for legacy PDB 2.00
   container files.  This file gives a shallow embedding of the two source
   editions (src/pdb_viewer.cpp and src/pdb_viewer.c) and proves properties of
   the embedded functions.

   Modeling conventions:
   - A file on disk is a total byte size plus a byte function; every read is
     guarded by the fread model, so bytes past the size never matter.
   - fread(ptr, n, 1, f) at absolute position pos returns 1 (success) iff n > 0
     and pos + n <= size.  Per the C standard, fread with a zero size returns 0,
     and the source treats any return value other than 1 as a failure.
   - fseek to an absolute position on a seekable file never fails, and heap
     allocation is assumed to succeed, so those two failure paths of the source
     are not represented.
   - Machine integers are Nat with an explicit % 2^32 wherever the source
     computes in uint32 and the result could exceed 32 bits.  Values read
     through the byte model (u16, u32) are bounded by construction.
   - Diagnostics (stderr lines) and reports (stdout lines) are modeled as
     constructors of one Output type, in emission order. -/

/-- A PDB file on disk: its size in bytes and its byte contents. -/
structure PdbFile where
  size : ℕ
  byte : ℕ → Fin 256

/-- An in-memory byte buffer (allocation result), indexed from 0.  Fresh
    allocations are modeled as zeroed; no theorem depends on the contents of
    bytes that are never written. -/
abbrev Buf : Type := ℕ → Fin 256

/-- The all-zero buffer used for fresh allocations. -/
def zeroBuf : Buf := fun _ => 0

/-- fread(ptr, n, 1, file) at absolute position pos succeeds iff n is positive
    and the n bytes starting at pos lie inside the file. -/
def freadOk (f : PdbFile) (pos n : ℕ) : Bool := decide (0 < n ∧ pos + n ≤ f.size)

/-- Little-endian 16-bit read from the file. -/
def u16At (f : PdbFile) (pos : ℕ) : ℕ := (f.byte pos).val + 256 * (f.byte (pos + 1)).val

/-- Little-endian 32-bit read from the file. -/
def u32At (f : PdbFile) (pos : ℕ) : ℕ := u16At f pos + 65536 * u16At f (pos + 2)

/-- Little-endian 16-bit read from a buffer. -/
def u16Buf (b : Buf) (pos : ℕ) : ℕ := (b pos).val + 256 * (b (pos + 1)).val

/-- Little-endian 32-bit read from a buffer. -/
def u32Buf (b : Buf) (pos : ℕ) : ℕ := u16Buf b pos + 65536 * u16Buf b (pos + 2)

/-- Copy of n bytes from file position src into the buffer at position dst
    (the fread into a buffer offset performed by the reconstruction loops). -/
def writeBytes (b : Buf) (dst : ℕ) (f : PdbFile) (src n : ℕ) : Buf :=
  fun i => if dst ≤ i ∧ i < dst + n then f.byte (src + (i - dst)) else b i

/-- The 44-byte array PDB_SIGNATURE_200, i.e. the string literal
    "Microsoft C/C++ program database 2.00" followed by CR, LF, 0x1A, J, G,
    an explicit NUL and the implicit terminating NUL
    (PDB_SIGNATURE_200_SIZE = sizeof of the literal = 44). -/
def pdbSignature200 : List (Fin 256) :=
  [77, 105, 99, 114, 111, 115, 111, 102, 116, 32,
   67, 47, 67, 43, 43, 32,
   112, 114, 111, 103, 114, 97, 109, 32,
   100, 97, 116, 97, 98, 97, 115, 101, 32,
   50, 46, 48, 48,
   13, 10, 26, 74, 71, 0, 0]

/-- strncmp(a, b, n) == 0 starting at index i: the comparison stops at the
    first differing byte, at a terminating NUL byte, or after n bytes. -/
def strncmpEqAux (a b : ℕ → Fin 256) : ℕ → ℕ → Bool
  | _, 0 => true
  | i, n + 1 =>
    if a i ≠ b i then false
    else if a i = 0 then true
    else strncmpEqAux a b (i + 1) n

/-- The signature check of validate_header:
    strncmp(buffer, PDB_SIGNATURE_200, PDB_SIGNATURE_200_SIZE) == 0. -/
def sigMatch (f : PdbFile) : Bool :=
  strncmpEqAux f.byte (fun i => pdbSignature200.getD i 0) 0 44

/-- pdb_stream_t: a stream descriptor, a declared byte size (uint32) followed
    by two inline uint16 page slots; sizeof(pdb_stream_t) = 8. -/
structure pdb_stream_t where
  stream_size : ℕ
  stream_page0 : ℕ
  stream_page1 : ℕ
deriving DecidableEq

/-- pdb_header_t: the fixed container header that follows the signature;
    sizeof(pdb_header_t) = 16. -/
structure pdb_header_t where
  page_size : ℕ
  start_page : ℕ
  file_pages : ℕ
  root_stream : pdb_stream_t
deriving DecidableEq

/-- The packed header record as read by fread immediately after the 44-byte
    signature: page_size u32 at offset 44, start_page u16 at 48, file_pages u16
    at 50, root stream descriptor (u32 size at 52, two u16 page slots at 56
    and 58).  The header ends at offset 60. -/
def parseHeader (f : PdbFile) : pdb_header_t :=
  { page_size := u32At f 44
    start_page := u16At f 48
    file_pages := u16At f 50
    root_stream :=
      { stream_size := u32At f 52
        stream_page0 := u16At f 56
        stream_page1 := u16At f 58 } }

/-- The distinct failure conditions of validate_header, in source order. -/
inductive HeaderError where
  | sigReadFailed
  | sigMismatch
  | headerReadFailed
  | invalidPageSize
  | invalidStartPage
  | pageCountMismatch
  | rootStreamFree
deriving DecidableEq

/-- validate_header (src/pdb_viewer.cpp lines 201-257; src/pdb_viewer.c lines
    64-120 is the same logic): read and compare the signature, read the packed
    header, then check page size, start page, the 16-bit-truncated quotient
    file_size / page_size against file_pages, and that the root stream size is
    not the all-ones free sentinel.  The first failing check returns its error
    and no later check runs. -/
def validate_header (f : PdbFile) : Except HeaderError pdb_header_t :=
  if ¬ freadOk f 0 44 then .error .sigReadFailed
  else if ¬ sigMatch f then .error .sigMismatch
  else if ¬ freadOk f 44 16 then .error .headerReadFailed
  else
    let h := parseHeader f
    if h.page_size ≠ 1024 ∧ h.page_size ≠ 2048 ∧ h.page_size ≠ 4096 then
      .error .invalidPageSize
    else if h.start_page ≠ 9 ∧ h.start_page ≠ 5 ∧ h.start_page ≠ 2 then
      .error .invalidStartPage
    else if f.size / h.page_size % 65536 ≠ h.file_pages then
      .error .pageCountMismatch
    else if h.root_stream.stream_size = 4294967295 then
      .error .rootStreamFree
    else .ok h

/-- Whether validate_header accepts the file. -/
def headerOk (f : PdbFile) : Bool :=
  match validate_header f with
  | .ok _ => true
  | .error _ => false

/-- The distinct failure conditions of open_root_stream, in source order.
    Allocation failure and fseek failure are not represented (see the header
    comment). -/
inductive RootError where
  | emptyRoot
  | readIndexFailed
  | pageOutOfRange
  | readPageFailed
  | incompleteRoot
  | dirTooSmall
deriving DecidableEq

/-- The bound check applied to every page index in both reconstruction loops
    of src/pdb_viewer.cpp: a page is rejected iff it is strictly greater than
    the header's total page count (the bound is inclusive). -/
def pageOutOfBounds (file_pages idx : ℕ) : Bool := decide (file_pages < idx)

/-- The page-count formula shared by the root reconstructor and the directory
    loop: size / page_size + 1, computed in uint32. -/
def pagesFormula (s p : ℕ) : ℕ := (s / p + 1) % 4294967296

/-- Result of the root copy loop: the output buffer, the remaining declared
    byte count (root_size after all the decrements) and the total number of
    bytes copied. -/
structure RootLoopOut where
  buf : Buf
  remaining : ℕ
  copied : ℕ

/-- The root copy loop of open_root_stream (src/pdb_viewer.cpp lines 282-322).
    One iteration per indirection slot: read the u16 page index at the cursor,
    bound-check it, seek to page * page_size and copy
    min(page_size, remaining) bytes into the buffer at offset
    loop_counter * page_size, then resume at the next slot.  The C edition
    (src/pdb_viewer.c lines 147-185) is identical except that it has no bound
    check. -/
def rootLoop (f : PdbFile) (p fp : ℕ) : ℕ → ℕ → ℕ → ℕ → ℕ → Buf → Except RootError RootLoopOut
  | 0, _page, _pos, remaining, copied, buf => .ok ⟨buf, remaining, copied⟩
  | slots + 1, page, pos, remaining, copied, buf =>
    if ¬ freadOk f pos 2 then .error .readIndexFailed
    else if pageOutOfBounds fp (u16At f pos) then .error .pageOutOfRange
    else if ¬ freadOk f (u16At f pos * p % 4294967296) (min p remaining) then .error .readPageFailed
    else
      rootLoop f p fp slots (page + 1) (pos + 2) (remaining - min p remaining)
        (copied + min p remaining)
        (writeBytes buf (page * p % 4294967296) f (u16At f pos * p % 4294967296) (min p remaining))

/-- The root copy loop as invoked by open_root_stream: root_pages =
    pagesFormula slots, loop counter 0, cursor at offset 60 (just past the
    header), remaining = the declared root size, nothing copied yet, into a
    fresh buffer. -/
def rootLoopFull (f : PdbFile) (hdr : pdb_header_t) : Except RootError RootLoopOut :=
  rootLoop f hdr.page_size hdr.file_pages
    (pagesFormula hdr.root_stream.stream_size hdr.page_size)
    0 60 hdr.root_stream.stream_size 0 zeroBuf

/-- The directory-size guard of open_root_stream:
    offsetof(pdb_root_t, streams) + count * sizeof(pdb_stream_t) must not
    exceed the declared root stream size, i.e. 4 + count * 8 <= root_size. -/
def rootDirGuard (count root_size : ℕ) : Bool := decide (4 + count * 8 ≤ root_size)

/-- Byte offset of directory entry number `entry` inside the reconstructed
    root bytes: offsetof(pdb_root_t, streams) + entry * sizeof(pdb_stream_t). -/
def streamDescOffset (entry : ℕ) : ℕ := 4 + entry * 8

/-- The checks of open_root_stream that follow the copy loop
    (src/pdb_viewer.cpp lines 324-337): the remaining declared byte count must
    be exactly zero, and the stream count read from the front of the
    reconstructed bytes must fit inside the declared root size.  On success the
    reconstructed buffer and its stream count are produced. -/
def rootFinish (root_size : ℕ) (out : RootLoopOut) : Except RootError (Buf × ℕ) :=
  if out.remaining ≠ 0 then .error .incompleteRoot
  else if ¬ rootDirGuard (u16Buf out.buf 0) root_size then .error .dirTooSmall
  else .ok (out.buf, u16Buf out.buf 0)

/-- open_root_stream (src/pdb_viewer.cpp lines 259-338): compute root_pages =
    root_size / page_size + 1, reject an empty root, run the copy loop over the
    indirection slots, then apply the post-loop checks. -/
def open_root_stream (f : PdbFile) (hdr : pdb_header_t) : Except RootError (Buf × ℕ) :=
  if hdr.root_stream.stream_size = 0 ∨ pagesFormula hdr.root_stream.stream_size hdr.page_size = 0 then
    .error .emptyRoot
  else
    match rootLoopFull f hdr with
    | .error e => .error e
    | .ok out => rootFinish hdr.root_stream.stream_size out

/-- The version epochs of the pdb_versions_t, dbi_versions_t and
    tpi_versions_t enumerations. -/
def pdb_version_2 : ℕ := 19941610

/-- pdb_version_4 from pdb_versions_t. -/
def pdb_version_4 : ℕ := 19950623

/-- pdb_version_41 from pdb_versions_t. -/
def pdb_version_41 : ℕ := 19950814

/-- pdb_version_5 from pdb_versions_t. -/
def pdb_version_5 : ℕ := 19960307

/-- pdb_version_6 from pdb_versions_t. -/
def pdb_version_6 : ℕ := 19970604

/-- pdb_version_7p from pdb_versions_t. -/
def pdb_version_7p : ℕ := 19990604

/-- pdb_version_7 from pdb_versions_t. -/
def pdb_version_7 : ℕ := 20000404

/-- dbi_version_41 from dbi_versions_t. -/
def dbi_version_41 : ℕ := 930803

/-- dbi_version_5 from dbi_versions_t. -/
def dbi_version_5 : ℕ := 19960307

/-- dbi_version_6 from dbi_versions_t. -/
def dbi_version_6 : ℕ := 19970606

/-- dbi_version_7 from dbi_versions_t. -/
def dbi_version_7 : ℕ := 19990903

/-- tpi_version_6 from tpi_versions_t. -/
def tpi_version_6 : ℕ := 19961031

/-- The per-file mutable members of pdb_file_t that the stream decoders read
    and write: the recorded format version and the three symbol-stream
    indices. -/
structure SessionState where
  pdb_version : ℕ
  gs_stream : ℕ
  ps_stream : ℕ
  sym_stream : ℕ
deriving DecidableEq

/-- The pdb_file_t constructor (src/pdb_viewer.cpp lines 175-184):
    _pdb_version = pdb_version_2 and the three symbol-stream indices set to
    (uint16_t)-1 = 65535. -/
def initState : SessionState :=
  { pdb_version := pdb_version_2
    gs_stream := 65535
    ps_stream := 65535
    sym_stream := 65535 }

/-- One line of diagnostic or report output, tagged by its origin. -/
inductive Output where
  | headerError (e : HeaderError)
  | rootError (e : RootError)
  | streamPageOutOfRange
  | streamReadFailed
  | rootSizeMismatch
  | pdbHeaderTooSmall
  | pdbVC2
  | pdbVC4
  | pdbVC5
  | pdbVC6
  | pdbVC7
  | pdbUnknownRelease (v : ℕ)
  | pdbHeaderExTooSmall
  | pdbId
  | tpiTooSmall
  | tpiVC6
  | tpiUnknownVersion (v : ℕ)
  | tpiCorrupted
  | tpiNoTypes
  | tpiMinTi (v : ℕ)
  | tpiMaxTi (v : ℕ)
  | tpiNotBigEnough
  | dbiTooSmall
  | dbiInvalidSignature
  | dbiVC4
  | dbiVC5
  | dbiVC6
  | dbiVC7
  | dbiUnknownRelease (v : ℕ)
  | fpoFound
  | globalSymbolsFound
  | privateSymbolsFound
  | symbolsFound
deriving DecidableEq

/-- The version switch of read_stream_pdb_header_t. -/
def pdbVersionLine (v : ℕ) : Output :=
  if v = pdb_version_2 then .pdbVC2
  else if v = pdb_version_4 ∨ v = pdb_version_41 then .pdbVC4
  else if v = pdb_version_5 then .pdbVC5
  else if v = pdb_version_6 then .pdbVC6
  else if v = pdb_version_7p ∨ v = pdb_version_7 then .pdbVC7
  else .pdbUnknownRelease v

/-- read_stream_pdb_header_t (src/pdb_viewer.cpp lines 350-406): requires the
    stream to hold a pdb_stream_header_t (12 bytes), reports the version
    ladder, records the version into the session state, and for versions newer
    than pdb_version_7p additionally requires the extended header (28 bytes)
    and reports the GUID and age. -/
def read_stream_pdb_header (ssize : ℕ) (b : Buf) (st : SessionState) :
    SessionState × List Output :=
  if ssize < 12 then (st, [.pdbHeaderTooSmall])
  else
    let version := u32Buf b 0
    let st2 : SessionState := { st with pdb_version := version }
    if pdb_version_7p < version then
      if ssize < 28 then (st2, [pdbVersionLine version, .pdbHeaderExTooSmall])
      else (st2, [pdbVersionLine version, .pdbId])
    else (st2, [pdbVersionLine version])

/-- The version switch of read_stream_tpi. -/
def tpiVersionLine (v : ℕ) : Output :=
  if v = tpi_version_6 then .tpiVC6 else .tpiUnknownVersion v

/-- read_stream_tpi (src/pdb_viewer.cpp lines 408-450): requires the stream to
    hold a tpi_header_t (20 bytes: version, header_size, min_ti, max_ti, size),
    reports the version, then either the empty-payload diagnoses or the type
    index bounds plus a size-consistency warning.  The session state is not
    touched. -/
def read_stream_tpi (ssize : ℕ) (b : Buf) : List Output :=
  if ssize < 20 then [.tpiTooSmall]
  else
    let version := u32Buf b 0
    let min_ti := u32Buf b 8
    let max_ti := u32Buf b 12
    let tsize := u32Buf b 16
    if tsize = 0 then
      if min_ti ≠ max_ti then [tpiVersionLine version, .tpiCorrupted]
      else [tpiVersionLine version, .tpiNoTypes]
    else
      [tpiVersionLine version, .tpiMinTi min_ti, .tpiMaxTi max_ti] ++
        (if ssize < tsize + 20 then [.tpiNotBigEnough] else [])

/-- The version switch of the new-layout branch of read_stream_dbi. -/
def dbiVersionLine (v : ℕ) : Output :=
  if v = dbi_version_41 then .dbiVC4
  else if v = dbi_version_5 then .dbiVC5
  else if v = dbi_version_6 then .dbiVC6
  else if v = dbi_version_7 then .dbiVC7
  else .dbiUnknownRelease v

/-- The new-layout branch of read_stream_dbi (src/pdb_viewer.cpp lines
    454-496): requires a dbi_header_t (22 bytes), requires the 32-bit signature
    field to equal 0xFFFFFFFF, reports the version, and stores the three
    symbol-stream indices (u16 fields at offsets 12, 16 and 20). -/
def modern_dbi_decode (ssize : ℕ) (b : Buf) (st : SessionState) :
    SessionState × List Output :=
  if ssize < 22 then (st, [.dbiTooSmall])
  else if u32Buf b 0 ≠ 4294967295 then (st, [.dbiInvalidSignature])
  else
    ({ st with
        gs_stream := u16Buf b 12
        ps_stream := u16Buf b 16
        sym_stream := u16Buf b 20 },
     [dbiVersionLine (u32Buf b 4)])

/-- The old-layout branch of read_stream_dbi (src/pdb_viewer.cpp lines
    497-510): requires an old_dbi_header_t (6 bytes: three u16 fields) and
    stores the three symbol-stream indices without any report. -/
def legacy_dbi_decode (ssize : ℕ) (b : Buf) (st : SessionState) :
    SessionState × List Output :=
  if ssize < 6 then (st, [.dbiTooSmall])
  else
    ({ st with
        gs_stream := u16Buf b 0
        ps_stream := u16Buf b 2
        sym_stream := u16Buf b 4 },
     [])

/-- read_stream_dbi (src/pdb_viewer.cpp lines 452-513): the recorded format
    version selects the new layout (strictly newer than pdb_version_4) or the
    legacy 3-field layout. -/
def read_stream_dbi (ssize : ℕ) (b : Buf) (st : SessionState) :
    SessionState × List Output :=
  if pdb_version_4 < st.pdb_version then modern_dbi_decode ssize b st
  else legacy_dbi_decode ssize b st

/-- The default case of the dispatch switch (src/pdb_viewer.cpp lines
    591-609): the three stored symbol-stream indices are tried in the fixed
    order global, private, public; each must be strictly below the directory
    stream count, strictly above type_fpo = 5, and equal to the stream index;
    the first match is reported and no match produces no output. -/
def dispatchDefault (st : SessionState) (count idx : ℕ) : List Output :=
  if st.gs_stream < count ∧ 5 < st.gs_stream ∧ idx = st.gs_stream then
    [.globalSymbolsFound]
  else if st.ps_stream < count ∧ 5 < st.ps_stream ∧ idx = st.ps_stream then
    [.privateSymbolsFound]
  else if st.sym_stream < count ∧ 5 < st.sym_stream ∧ idx = st.sym_stream then
    [.symbolsFound]
  else []

/-- The dispatch switch of read_stream (src/pdb_viewer.cpp lines 569-610),
    keyed by the stream's ordinal index in the directory: 0 root copy check,
    1 info header, 2 TPI, 3 DBI, 5 FPO notice, anything else the symbol-stream
    lookup. -/
def dispatch (hdr : pdb_header_t) (count ssize idx : ℕ) (b : Buf)
    (st : SessionState) : SessionState × List Output :=
  if idx = 0 then
    (st, if ssize ≠ hdr.root_stream.stream_size then [.rootSizeMismatch] else [])
  else if idx = 1 then read_stream_pdb_header ssize b st
  else if idx = 2 then (st, read_stream_tpi ssize b)
  else if idx = 3 then read_stream_dbi ssize b st
  else if idx = 5 then (st, [.fpoFound])
  else (st, dispatchDefault st count idx)

/-- The per-stream copy loop of read_stream (src/pdb_viewer.cpp lines
    539-567): for each page of the stream's page list, bound-check the index,
    seek to page * page_size, copy min(page_size, remaining) bytes into the
    buffer at offset loop_counter * page_size and decrement remaining.  Unlike
    the root loop there is no completeness check afterwards. -/
def streamCopyLoop (f : PdbFile) (p fp : ℕ) (plist : ℕ → ℕ) :
    ℕ → ℕ → ℕ → Buf → Except Output Buf
  | 0, _page, _remaining, buf => .ok buf
  | slots + 1, page, remaining, buf =>
    if pageOutOfBounds fp (plist page) then .error .streamPageOutOfRange
    else if ¬ freadOk f (plist page * p % 4294967296) (min p remaining) then
      .error .streamReadFailed
    else
      streamCopyLoop f p fp plist slots (page + 1) (remaining - min p remaining)
        (writeBytes buf (page * p % 4294967296) f (plist page * p % 4294967296)
          (min p remaining))

/-- read_stream (src/pdb_viewer.cpp lines 521-614): a stream with zero pages
    is skipped silently; otherwise the copy loop materializes the stream and
    on success the buffer is handed to the dispatch switch.  A copy failure
    emits its diagnostic and skips only this stream (the session state is
    returned unchanged). -/
def read_stream (f : PdbFile) (hdr : pdb_header_t) (count ssize idx pages : ℕ)
    (plist : ℕ → ℕ) (st : SessionState) : SessionState × List Output :=
  if pages = 0 then (st, [])
  else
    match streamCopyLoop f hdr.page_size hdr.file_pages plist pages 0 ssize zeroBuf with
    | .error d => (st, [d])
    | .ok buf => dispatch hdr count ssize idx buf st

/-- Declared size of directory entry number `entry`: the u32 at the front of
    its descriptor in the reconstructed root bytes. -/
def dirStreamSize (b : Buf) (entry : ℕ) : ℕ := u32Buf b (streamDescOffset entry)

/-- The per-stream page count of the C++ directory loop (src/pdb_viewer.cpp
    lines 651-655): the shared formula, overridden to 0 when the declared size
    is 0 or the 0xFFFFFFFF free sentinel. -/
def cpp_stream_pages (s p : ℕ) : ℕ :=
  if s = 0 ∨ s = 4294967295 then 0 else pagesFormula s p

/-- The per-stream page count of the C directory loop (src/pdb_viewer.c lines
    272-276): the shared formula, overridden to 0 only when the declared size
    is 0 (the free sentinel is not excluded). -/
def c_stream_pages (s p : ℕ) : ℕ :=
  if s = 0 then 0 else pagesFormula s p

/-- The page list passed to directory entry whose predecessors used `total`
    pages in all: u16 entries of the flat page-index run that starts right
    after the descriptor table (buffer offset 4 + count * 8), shifted by
    total entries (uint16 pointer arithmetic of the C++ edition). -/
def dirPagesList (b : Buf) (count total : ℕ) : ℕ → ℕ :=
  fun i => u16Buf b (4 + count * 8 + (total + i) * 2)

/-- The directory loop of extract_pdb (src/pdb_viewer.cpp lines 645-660):
    for each entry below the stream count, compute the declared size and page
    count, call read_stream, and advance the running page total (a uint32).
    The fuel argument starts at count and the loop always advances to the next
    entry whatever read_stream produced. -/
def streamsLoop (f : PdbFile) (hdr : pdb_header_t) (b : Buf) (count : ℕ) :
    ℕ → ℕ → ℕ → SessionState → List Output
  | 0, _entry, _total, _st => []
  | fuel + 1, entry, total, st =>
    if entry < count then
      match read_stream f hdr count (dirStreamSize b entry) entry
          (cpp_stream_pages (dirStreamSize b entry) hdr.page_size)
          (dirPagesList b count total) st with
      | (st2, out) =>
        out ++ streamsLoop f hdr b count fuel (entry + 1)
          ((total + cpp_stream_pages (dirStreamSize b entry) hdr.page_size) % 4294967296)
          st2
    else []

/-- extract_pdb (src/pdb_viewer.cpp lines 616-663): validate the header, stop
    on its failure; reconstruct the root stream, stop on its failure; then run
    the directory loop from a fresh session state. -/
def extract_pdb (f : PdbFile) : List Output :=
  match validate_header f with
  | .error e => [.headerError e]
  | .ok hdr =>
    match open_root_stream f hdr with
    | .error e => [.rootError e]
    | .ok (b, count) => streamsLoop f hdr b count count 0 0 initState

/-- Accounting invariant of the root copy loop: a successful run preserves
    copied + remaining. -/
lemma rootLoop_ok_invariant (f : PdbFile) (p fp : ℕ) :
    ∀ (slots page pos remaining copied : ℕ) (buf : Buf) (out : RootLoopOut),
      rootLoop f p fp slots page pos remaining copied buf = .ok out →
      out.copied + out.remaining = copied + remaining := by
  intro slots
  induction slots with
  | zero =>
    intro page pos remaining copied buf out h
    simp only [rootLoop, Except.ok.injEq] at h
    subst h
    rfl
  | succ n ih =>
    intro page pos remaining copied buf out h
    simp only [rootLoop] at h
    split at h
    · cases h
    split at h
    · cases h
    split at h
    · cases h
    have hmin : min p remaining ≤ remaining := Nat.min_le_right p remaining
    have h2 := ih _ _ _ _ _ _ h
    omega

/-- The post-loop completeness check of open_root_stream rejects any leftover
    declared bytes. -/
lemma rootFinish_incomplete (s : ℕ) (out : RootLoopOut) (h : out.remaining ≠ 0) :
    rootFinish s out = .error .incompleteRoot := by
  simp [rootFinish, h]

/-- A root-stream reconstruction failure stops processing of the file: the
    only output is its diagnostic and no stream is visited. -/
lemma extract_pdb_root_error (f : PdbFile) (hdr : pdb_header_t) (e : RootError)
    (h1 : validate_header f = .ok hdr) (h2 : open_root_stream f hdr = .error e) :
    extract_pdb f = [.rootError e] := by
  simp [extract_pdb, h1, h2]

/-- Byte contents of a small well-formed container: the signature, then
    page_size 1024, start_page 2, file_pages 3, root size 4 with two zero page
    slots, then one indirection entry pointing at page 1.  Bytes past offset 61
    (in particular all of page 1) are zero. -/
def fileABytes : List (Fin 256) :=
  pdbSignature200 ++ [0, 4, 0, 0, 2, 0, 3, 0, 4, 0, 0, 0, 0, 0, 0, 0, 1, 0]

/-- A 3072-byte well-formed container built from fileABytes. -/
def fileA : PdbFile := ⟨3072, fun i => fileABytes.getD i 0⟩

/-- The header of fileA (and of fileB, which differs only past the header). -/
def hdrA : pdb_header_t := ⟨1024, 2, 3, ⟨4, 0, 0⟩⟩

/-- Like fileA but its single indirection entry points at page 5, beyond the
    declared 3 file pages. -/
def fileBBytes : List (Fin 256) :=
  pdbSignature200 ++ [0, 4, 0, 0, 2, 0, 3, 0, 4, 0, 0, 0, 0, 0, 0, 0, 5, 0]

/-- A 3072-byte container whose root indirection entry is out of range. -/
def fileB : PdbFile := ⟨3072, fun i => fileBBytes.getD i 0⟩

/-- A 60-byte all-zero file: long enough for the header reads but with a
    corrupted signature. -/
def fileBad : PdbFile := ⟨60, fun _ => 0⟩

/-- A header whose root stream declares size 0. -/
def hdrZero : pdb_header_t := ⟨1024, 2, 3, ⟨0, 0, 0⟩⟩

/-- The result of the root copy loop on fileA. -/
def outA : RootLoopOut :=
  match rootLoopFull fileA hdrA with
  | .ok o => o
  | .error _ => ⟨zeroBuf, 0, 0⟩

/-- The reconstructed root of fileA: its buffer and stream count. -/
def rootA : Buf × ℕ :=
  match open_root_stream fileA hdrA with
  | .ok r => r
  | .error _ => (zeroBuf, 0)

/-- A session state whose recorded version is newer than pdb_version_4 and
    whose symbol-stream indices are still the all-ones sentinel. -/
def stModern : SessionState := ⟨pdb_version_5, 65535, 65535, 65535⟩

/-- A session state in which the global and private symbol-stream indices
    both hold 7. -/
def stShadow : SessionState := ⟨19941610, 7, 7, 65535⟩

/-- A constant page list pointing every page at page 1. -/
def plistOne : ℕ → ℕ := fun _ => 1

/-- The buffer materialized from fileA for a declared size of 3000 bytes with
    a single page: only 1024 bytes are copied, a strict shortfall. -/
def bufS : Buf :=
  match streamCopyLoop fileA 1024 3 plistOne 1 0 3000 zeroBuf with
  | .ok b => b
  | .error _ => zeroBuf

/-- C1: for a file whose header validates, root-stream reconstruction copies
    min(page_size, remaining) bytes per indirection slot; it succeeds only if
    the bytes copied equal the declared root size exactly (whatever the loop
    left over, copied + remaining is the declared size, and success forces
    remaining = 0); a nonzero leftover after the loop yields the
    IncompleteRootStream diagnostic; and a root reconstruction error stops
    processing of the file with no root directory produced (the file's only
    output is that diagnostic). -/
theorem c1_root_reconstruction_exact_coverage :
    (∀ (f : PdbFile) (hdr : pdb_header_t) (out : RootLoopOut),
        rootLoopFull f hdr = .ok out →
        out.copied + out.remaining = hdr.root_stream.stream_size) ∧
    (∀ (s : ℕ) (out : RootLoopOut), out.remaining ≠ 0 →
        rootFinish s out = .error .incompleteRoot) ∧
    (∀ (f : PdbFile) (hdr : pdb_header_t) (r : Buf × ℕ),
        open_root_stream f hdr = .ok r →
        ∀ out : RootLoopOut, rootLoopFull f hdr = .ok out →
          out.remaining = 0 ∧ out.copied = hdr.root_stream.stream_size) ∧
    (∀ (f : PdbFile) (hdr : pdb_header_t) (e : RootError),
        validate_header f = .ok hdr → open_root_stream f hdr = .error e →
        extract_pdb f = [.rootError e]) := by
  refine ⟨?_, rootFinish_incomplete, ?_, extract_pdb_root_error⟩
  · intro f hdr out h
    have h2 := rootLoop_ok_invariant f hdr.page_size hdr.file_pages _ _ _ _ _ _ _ h
    simpa using h2
  · intro f hdr r hok out hloop
    have hinv := rootLoop_ok_invariant f hdr.page_size hdr.file_pages _ _ _ _ _ _ _ hloop
    unfold open_root_stream at hok
    split at hok
    · cases hok
    · rw [hloop] at hok
      unfold rootFinish at hok
      by_cases hrem : out.remaining = 0
      · refine ⟨hrem, ?_⟩
        simp only [Nat.zero_add] at hinv
        omega
      · simp [hrem] at hok

/-- Witness for C1 at the concrete container fileA (root size 4, one
    indirection slot) and at fileB (root indirection entry out of range). -/
theorem c1_root_reconstruction_exact_coverage_witness :
    (outA.copied + outA.remaining = 4) ∧
    (rootFinish 4 ⟨zeroBuf, 1, 3⟩ = .error .incompleteRoot) ∧
    (outA.remaining = 0 ∧ outA.copied = 4) ∧
    (extract_pdb fileB = [.rootError .pageOutOfRange]) :=
  ⟨c1_root_reconstruction_exact_coverage.1 fileA hdrA outA rfl,
   c1_root_reconstruction_exact_coverage.2.1 4 ⟨zeroBuf, 1, 3⟩ (by decide),
   c1_root_reconstruction_exact_coverage.2.2.1 fileA hdrA rootA rfl outA rfl,
   c1_root_reconstruction_exact_coverage.2.2.2 fileB hdrA .pageOutOfRange rfl rfl⟩

/-- C2 counterexample: the claim extends the "size 0 means page count 0,
    absent, no error" rule to the root stream, but for a root stream of
    declared size 0 the code computes page count 0 / 1024 + 1 = 1, not 0, and
    open_root_stream rejects the file with the EmptyRootStream diagnostic
    instead of treating the stream as absent with no error. -/
theorem c2_root_zero_size_counterexample :
    pagesFormula 0 1024 = 1 ∧
    open_root_stream fileA hdrZero = .error .emptyRoot :=
  ⟨by decide, by rfl⟩

/-- C2 (amended): for the root stream and for every directory stream with
    declared size s > 0 and not the free sentinel, the computed page count is
    s / page_size + 1 (one more than the ceiling when s is an exact multiple
    of the page size); a directory stream with s = 0 or s = 0xFFFFFFFF gets
    page count 0 and is skipped with no output and no error; the root stream
    with declared size 0 is instead rejected with the EmptyRootStream error
    (and a sentinel-sized root is already rejected by header validation). -/
theorem c2_page_count_formula :
    (∀ s p : ℕ, (p = 1024 ∨ p = 2048 ∨ p = 4096) → s < 4294967296 → 0 < s →
        s ≠ 4294967295 →
        pagesFormula s p = s / p + 1 ∧ cpp_stream_pages s p = s / p + 1) ∧
    (∀ s p : ℕ, (p = 1024 ∨ p = 2048 ∨ p = 4096) → s < 4294967296 → 0 < s →
        s ≠ 4294967295 → s % p = 0 →
        cpp_stream_pages s p = (s + p - 1) / p + 1) ∧
    (∀ s p : ℕ, s = 0 ∨ s = 4294967295 → cpp_stream_pages s p = 0) ∧
    (∀ (f : PdbFile) (hdr : pdb_header_t) (count ssize idx : ℕ)
        (plist : ℕ → ℕ) (st : SessionState),
        read_stream f hdr count ssize idx 0 plist st = (st, [])) ∧
    (∀ (f : PdbFile) (hdr : pdb_header_t), hdr.root_stream.stream_size = 0 →
        open_root_stream f hdr = .error .emptyRoot) := by
  have key : ∀ s p : ℕ, (p = 1024 ∨ p = 2048 ∨ p = 4096) → s < 4294967296 →
      0 < s → s ≠ 4294967295 →
      pagesFormula s p = s / p + 1 ∧ cpp_stream_pages s p = s / p + 1 := by
    intro s p hp hs hpos hsent
    have hp2 : 2 ≤ p := by rcases hp with h | h | h <;> omega
    have hdiv2 : s / p < 2147483648 := Nat.div_lt_of_lt_mul (by nlinarith)
    have hdiv : s / p + 1 < 4294967296 := by omega
    have h1 : pagesFormula s p = s / p + 1 := by
      unfold pagesFormula
      exact Nat.mod_eq_of_lt hdiv
    refine ⟨h1, ?_⟩
    have hne : ¬ (s = 0 ∨ s = 4294967295) := by omega
    simp [cpp_stream_pages, hne, h1]
  refine ⟨key, ?_, ?_, ?_, ?_⟩
  · intro s p hp hs hpos hsent hmod
    have h1 := (key s p hp hs hpos hsent).2
    have hp0 : 0 < p := by rcases hp with h | h | h <;> omega
    obtain ⟨k, hk⟩ : p ∣ s := Nat.dvd_of_mod_eq_zero hmod
    subst hk
    have hceil : (p * k + p - 1) / p = k := by
      have he : p * k + p - 1 = p * k + (p - 1) := by omega
      rw [he, Nat.mul_add_div hp0, Nat.div_eq_of_lt (by omega)]
      omega
    have hfloor : p * k / p = k := Nat.mul_div_cancel_left k hp0
    rw [h1, hfloor, hceil]
  · intro s p h
    rcases h with h | h <;> subst h <;> simp [cpp_stream_pages]
  · intro f hdr count ssize idx plist st
    simp [read_stream]
  · intro f hdr h
    simp [open_root_stream, h]

/-- Witness for C2: page size 1024 with sizes 100 (general), 2048 (exact
    multiple), 0 and the sentinel (absent), a zero-page stream skipped with no
    output, and the empty root error. -/
theorem c2_page_count_formula_witness :
    (pagesFormula 100 1024 = 100 / 1024 + 1 ∧
      cpp_stream_pages 100 1024 = 100 / 1024 + 1) ∧
    (cpp_stream_pages 2048 1024 = (2048 + 1024 - 1) / 1024 + 1) ∧
    (cpp_stream_pages 4294967295 1024 = 0) ∧
    (read_stream fileA hdrA 1 5 7 0 plistOne initState = (initState, [])) ∧
    (open_root_stream fileB hdrZero = .error .emptyRoot) :=
  ⟨c2_page_count_formula.1 100 1024 (Or.inl rfl) (by decide) (by decide) (by decide),
   c2_page_count_formula.2.1 2048 1024 (Or.inl rfl) (by decide) (by decide)
     (by decide) (by decide),
   c2_page_count_formula.2.2.1 4294967295 1024 (Or.inr rfl),
   c2_page_count_formula.2.2.2.1 fileA hdrA 1 5 7 plistOne initState,
   c2_page_count_formula.2.2.2.2 fileB hdrZero rfl⟩

/-- C3: for a file large enough for the signature and header reads (60 bytes),
    validation accepts iff the leading bytes match the 2.00 signature (strncmp
    compares through the signature's terminating NUL), the page size is one of
    1024/2048/4096, the start page one of 2/5/9, file_size / page_size
    truncated to 16 bits equals the declared file_pages, and the declared root
    size is not 0xFFFFFFFF; and the checks stop at the first failure: a
    corrupted signature yields only the signature diagnostic whatever the
    other fields hold. -/
theorem c3_header_validation_checks :
    (∀ f : PdbFile, 60 ≤ f.size →
      (headerOk f = true ↔
        (sigMatch f = true ∧
         ((parseHeader f).page_size = 1024 ∨ (parseHeader f).page_size = 2048 ∨
           (parseHeader f).page_size = 4096) ∧
         ((parseHeader f).start_page = 2 ∨ (parseHeader f).start_page = 5 ∨
           (parseHeader f).start_page = 9) ∧
         f.size / (parseHeader f).page_size % 65536 = (parseHeader f).file_pages ∧
         (parseHeader f).root_stream.stream_size ≠ 4294967295))) ∧
    (∀ f : PdbFile, 44 ≤ f.size → sigMatch f = false →
      validate_header f = .error .sigMismatch) := by
  constructor
  · intro f h60
    have h1 : freadOk f 0 44 = true := by simp [freadOk]; omega
    have h2 : freadOk f 44 16 = true := by simp [freadOk]; omega
    by_cases hs : sigMatch f = true
    · simp only [headerOk, validate_header, h1, h2, hs]
      split_ifs with hps hsp hpc hroot <;> simp_all
      tauto
    · have hs2 : sigMatch f = false := by
        cases hb : sigMatch f
        · rfl
        · exact absurd hb hs
      simp [headerOk, validate_header, h1, h2, hs2]
  · intro f h44 hs
    have h1 : freadOk f 0 44 = true := by simp [freadOk]; omega
    simp [validate_header, h1, hs]

/-- Witness for C3: the well-formed container fileA is accepted, and the
    all-zero fileBad fails with exactly the signature diagnostic. -/
theorem c3_header_validation_checks_witness :
    headerOk fileA = true ∧
    validate_header fileBad = .error .sigMismatch :=
  ⟨(c3_header_validation_checks.1 fileA (by decide)).mpr (by decide),
   c3_header_validation_checks.2 fileBad (by decide) (by decide)⟩

/-- C4: the page bound check is inclusive: an index equal to file_pages
    passes and any strictly greater index is rejected as out of range; an
    out-of-range index makes the root copy loop fail with PageOutOfRange and
    makes read_stream emit its diagnostic and skip only that stream's decode
    (state unchanged, no decoder output), while the directory loop always
    advances to the next entry; a root reconstruction error instead stops the
    whole file. -/
theorem c4_page_bound_inclusive :
    (∀ fp : ℕ, pageOutOfBounds fp fp = false) ∧
    (∀ fp k : ℕ, pageOutOfBounds fp (fp + k + 1) = true) ∧
    (∀ (f : PdbFile) (p fp slots page pos remaining copied : ℕ) (buf : Buf),
        freadOk f pos 2 = true → fp < u16At f pos →
        rootLoop f p fp (slots + 1) page pos remaining copied buf =
          .error .pageOutOfRange) ∧
    (∀ (f : PdbFile) (p fp : ℕ) (plist : ℕ → ℕ) (slots page remaining : ℕ)
        (buf : Buf), fp < plist page →
        streamCopyLoop f p fp plist (slots + 1) page remaining buf =
          .error .streamPageOutOfRange) ∧
    (∀ (f : PdbFile) (hdr : pdb_header_t) (count ssize idx pages : ℕ)
        (plist : ℕ → ℕ) (st : SessionState),
        hdr.file_pages < plist 0 → 0 < pages →
        read_stream f hdr count ssize idx pages plist st =
          (st, [.streamPageOutOfRange])) ∧
    (∀ (f : PdbFile) (hdr : pdb_header_t) (b : Buf) (count fuel entry total : ℕ)
        (st : SessionState), entry < count →
        streamsLoop f hdr b count (fuel + 1) entry total st =
          (read_stream f hdr count (dirStreamSize b entry) entry
            (cpp_stream_pages (dirStreamSize b entry) hdr.page_size)
            (dirPagesList b count total) st).2 ++
          streamsLoop f hdr b count fuel (entry + 1)
            ((total + cpp_stream_pages (dirStreamSize b entry) hdr.page_size) %
              4294967296)
            (read_stream f hdr count (dirStreamSize b entry) entry
              (cpp_stream_pages (dirStreamSize b entry) hdr.page_size)
              (dirPagesList b count total) st).1) ∧
    (∀ (f : PdbFile) (hdr : pdb_header_t) (e : RootError),
        validate_header f = .ok hdr → open_root_stream f hdr = .error e →
        extract_pdb f = [.rootError e]) := by
  refine ⟨?_, ?_, ?_, ?_, ?_, ?_, extract_pdb_root_error⟩
  · intro fp
    simp [pageOutOfBounds]
  · intro fp k
    simp [pageOutOfBounds]
    omega
  · intro f p fp slots page pos remaining copied buf h1 h2
    simp [rootLoop, h1, pageOutOfBounds, h2]
  · intro f p fp plist slots page remaining buf h
    simp [streamCopyLoop, pageOutOfBounds, h]
  · intro f hdr count ssize idx pages plist st h hp
    obtain ⟨k, rfl⟩ : ∃ k, pages = k + 1 := ⟨pages - 1, by omega⟩
    simp [read_stream, streamCopyLoop, pageOutOfBounds, h]
  · intro f hdr b count fuel entry total st h
    rcases hr : read_stream f hdr count (dirStreamSize b entry) entry
        (cpp_stream_pages (dirStreamSize b entry) hdr.page_size)
        (dirPagesList b count total) st with ⟨st2, out⟩
    simp [streamsLoop, h, hr]

/-- Witness for C4: boundary values 3 and 4 against file_pages 3, the
    out-of-range root slot of fileB, an out-of-range stream page list on
    fileA, the directory loop stepping over entry 0 of a one-entry directory,
    and fileB aborting whole-file processing. -/
theorem c4_page_bound_inclusive_witness :
    (pageOutOfBounds 3 3 = false) ∧
    (pageOutOfBounds 3 4 = true) ∧
    (rootLoop fileB 1024 3 1 0 60 4 0 zeroBuf = .error .pageOutOfRange) ∧
    (streamCopyLoop fileA 1024 3 (fun _ => 9) 1 0 4 zeroBuf =
      .error .streamPageOutOfRange) ∧
    (read_stream fileA hdrA 1 4 7 1 (fun _ => 9) initState =
      (initState, [.streamPageOutOfRange])) ∧
    (streamsLoop fileA hdrA zeroBuf 1 1 0 0 initState =
      (read_stream fileA hdrA 1 (dirStreamSize zeroBuf 0) 0
        (cpp_stream_pages (dirStreamSize zeroBuf 0) hdrA.page_size)
        (dirPagesList zeroBuf 1 0) initState).2 ++
      streamsLoop fileA hdrA zeroBuf 1 0 1
        ((0 + cpp_stream_pages (dirStreamSize zeroBuf 0) hdrA.page_size) %
          4294967296)
        (read_stream fileA hdrA 1 (dirStreamSize zeroBuf 0) 0
          (cpp_stream_pages (dirStreamSize zeroBuf 0) hdrA.page_size)
          (dirPagesList zeroBuf 1 0) initState).1) ∧
    (extract_pdb fileB = [.rootError .pageOutOfRange]) :=
  ⟨c4_page_bound_inclusive.1 3,
   c4_page_bound_inclusive.2.1 3 0,
   c4_page_bound_inclusive.2.2.1 fileB 1024 3 0 0 60 4 0 zeroBuf (by decide)
     (by decide),
   c4_page_bound_inclusive.2.2.2.1 fileA 1024 3 (fun _ => 9) 0 0 4 zeroBuf
     (by decide),
   c4_page_bound_inclusive.2.2.2.2.1 fileA hdrA 1 4 7 1 (fun _ => 9) initState
     (by decide) (by decide),
   c4_page_bound_inclusive.2.2.2.2.2.1 fileA hdrA zeroBuf 1 0 0 0 initState
     (by decide),
   c4_page_bound_inclusive.2.2.2.2.2.2 fileB hdrA .pageOutOfRange rfl rfl⟩

/-- C5: once the recorded version is newer than pdb_version_4, a DBI stream
    (index 3, dispatched to read_stream_dbi) large enough for its header but
    whose signature field is not 0xFFFFFFFF yields only the invalid-signature
    diagnostic and leaves the session state untouched; and while the three
    symbol-stream indices still hold the 65535 sentinel, the default dispatch
    branch prints nothing for any stream index (the stored index can never be
    below the u16 stream count), even when the index equals 65535. -/
theorem c5_dbi_invalid_signature :
    (∀ (ssize : ℕ) (b : Buf) (st : SessionState),
        pdb_version_4 < st.pdb_version → 22 ≤ ssize →
        u32Buf b 0 ≠ 4294967295 →
        read_stream_dbi ssize b st = (st, [.dbiInvalidSignature])) ∧
    (∀ (st : SessionState) (count idx : ℕ),
        st.gs_stream = 65535 → st.ps_stream = 65535 → st.sym_stream = 65535 →
        count ≤ 65535 → dispatchDefault st count idx = []) := by
  constructor
  · intro ssize b st h1 h2 h3
    have hlt : ¬ ssize < 22 := by omega
    simp [read_stream_dbi, modern_dbi_decode, h1, hlt, h3]
  · intro st count idx h1 h2 h3 hc
    have hgt : ¬ (65535 < count) := by omega
    simp [dispatchDefault, h1, h2, h3, hgt]

/-- Witness for C5: a 22-byte all-zero DBI stream under recorded version
    pdb_version_5 (signature field 0), and the sentinel state queried at
    stream index 65535 with stream count 100. -/
theorem c5_dbi_invalid_signature_witness :
    read_stream_dbi 22 zeroBuf stModern = (stModern, [.dbiInvalidSignature]) ∧
    dispatchDefault stModern 100 65535 = [] :=
  ⟨c5_dbi_invalid_signature.1 22 zeroBuf stModern (by decide) (by decide)
     (by decide),
   c5_dbi_invalid_signature.2 stModern 100 65535 rfl rfl rfl (by decide)⟩

/-- C6 counterexample: with the global and private symbol-stream indices both
    stored as 7, dispatching stream index 7 (count 10) satisfies the
    private-symbols condition of the claim (stored index equals the stream
    index, is below the count and above 5), yet no private-symbols line is
    printed: the else-if chain already matched the global role. -/
theorem c6_shadowed_role_counterexample :
    (stShadow.ps_stream < 10 ∧ 5 < stShadow.ps_stream ∧ 7 = stShadow.ps_stream) ∧
    dispatchDefault stShadow 10 7 = [.globalSymbolsFound] ∧
    Output.privateSymbolsFound ∉ dispatchDefault stShadow 10 7 := by
  decide

/-- C6 (amended): for every stream index outside {0, 1, 2, 3, 5} the dispatch
    reduces to the symbol-stream lookup, which tries the three stored roles in
    the fixed order global, private, public and prints the line of the first
    role whose stored index is strictly below the stream count, strictly above
    5 and equal to the stream index; a role's line therefore appears iff its
    condition holds and no earlier role's condition does, and no output is
    produced iff no role matches. -/
theorem c6_default_dispatch_priority :
    (∀ (hdr : pdb_header_t) (count ssize idx : ℕ) (b : Buf) (st : SessionState),
        idx ≠ 0 → idx ≠ 1 → idx ≠ 2 → idx ≠ 3 → idx ≠ 5 →
        dispatch hdr count ssize idx b st = (st, dispatchDefault st count idx)) ∧
    (∀ (st : SessionState) (count idx : ℕ),
        (dispatchDefault st count idx = [.globalSymbolsFound] ↔
          (st.gs_stream < count ∧ 5 < st.gs_stream ∧ idx = st.gs_stream)) ∧
        (dispatchDefault st count idx = [.privateSymbolsFound] ↔
          (¬(st.gs_stream < count ∧ 5 < st.gs_stream ∧ idx = st.gs_stream) ∧
           (st.ps_stream < count ∧ 5 < st.ps_stream ∧ idx = st.ps_stream))) ∧
        (dispatchDefault st count idx = [.symbolsFound] ↔
          (¬(st.gs_stream < count ∧ 5 < st.gs_stream ∧ idx = st.gs_stream) ∧
           ¬(st.ps_stream < count ∧ 5 < st.ps_stream ∧ idx = st.ps_stream) ∧
           (st.sym_stream < count ∧ 5 < st.sym_stream ∧ idx = st.sym_stream))) ∧
        (dispatchDefault st count idx = [] ↔
          (¬(st.gs_stream < count ∧ 5 < st.gs_stream ∧ idx = st.gs_stream) ∧
           ¬(st.ps_stream < count ∧ 5 < st.ps_stream ∧ idx = st.ps_stream) ∧
           ¬(st.sym_stream < count ∧ 5 < st.sym_stream ∧ idx = st.sym_stream)))) := by
  constructor
  · intro hdr count ssize idx b st h0 h1 h2 h3 h5
    simp [dispatch, h0, h1, h2, h3, h5]
  · intro st count idx
    unfold dispatchDefault
    split_ifs with hg hp hy <;> simp_all
  
/-- Witness for C6: a non-reserved index dispatches to the lookup, and the
    characterization applied at the shadowed state shows the global line with
    its condition. -/
theorem c6_default_dispatch_priority_witness :
    (dispatch hdrA 10 4 7 zeroBuf initState =
      (initState, dispatchDefault initState 10 7)) ∧
    (dispatchDefault stShadow 10 7 = [.globalSymbolsFound] ↔
      (stShadow.gs_stream < 10 ∧ 5 < stShadow.gs_stream ∧ 7 = stShadow.gs_stream)) :=
  ⟨c6_default_dispatch_priority.1 hdrA 10 4 7 zeroBuf initState (by decide)
     (by decide) (by decide) (by decide) (by decide),
   (c6_default_dispatch_priority.2 stShadow 10 7).1⟩

/-- C7: the stream materializer has no completeness check: whenever its copy
    loop succeeds, the buffer is handed to the per-index decoder with no
    condition on the remaining byte count, so a page list that leaves part of
    the declared size uncovered is silently accepted; the root reconstructor,
    by contrast, rejects any leftover with IncompleteRootStream. -/
theorem c7_materializer_no_completeness_check :
    (∀ (f : PdbFile) (hdr : pdb_header_t) (count ssize idx pages : ℕ)
        (plist : ℕ → ℕ) (st : SessionState) (b : Buf),
        streamCopyLoop f hdr.page_size hdr.file_pages plist pages 0 ssize zeroBuf =
          .ok b →
        0 < pages →
        read_stream f hdr count ssize idx pages plist st =
          dispatch hdr count ssize idx b st) ∧
    (∀ (s : ℕ) (out : RootLoopOut), out.remaining ≠ 0 →
        rootFinish s out = .error .incompleteRoot) := by
  refine ⟨?_, rootFinish_incomplete⟩
  intro f hdr count ssize idx pages plist st b h hp
  have hne : pages ≠ 0 := by omega
  simp [read_stream, hne, h]

/-- Witness for C7: a stream declaring 3000 bytes materialized from a single
    1024-byte page of fileA: the copy loop succeeds, 3000 - 1024 bytes remain
    uncovered, and the buffer still reaches the decoder (index 5 reports the
    FPO notice). -/
theorem c7_materializer_no_completeness_check_witness :
    (streamCopyLoop fileA 1024 3 plistOne 1 0 3000 zeroBuf = .ok bufS) ∧
    (3000 - 1024 ≠ 0) ∧
    (read_stream fileA hdrA 10 3000 5 1 plistOne initState =
      dispatch hdrA 10 3000 5 bufS initState) ∧
    (dispatch hdrA 10 3000 5 bufS initState = (initState, [.fpoFound])) ∧
    (rootFinish 3000 ⟨zeroBuf, 1976, 1024⟩ = .error .incompleteRoot) :=
  ⟨rfl, by decide,
   c7_materializer_no_completeness_check.1 fileA hdrA 10 3000 5 1 plistOne
     initState bufS rfl (by decide),
   rfl,
   c7_materializer_no_completeness_check.2 3000 ⟨zeroBuf, 1976, 1024⟩ (by decide)⟩

/-- C8: after a successful root reconstruction the directory guard holds
    (4 + count * 8 bytes fit in the declared root size), and under that guard
    every descriptor read by the directory loop (entry < count) lies entirely
    within the reconstructed root bytes. -/
theorem c8_directory_guard_bounds :
    (∀ (f : PdbFile) (hdr : pdb_header_t) (b : Buf) (count : ℕ),
        open_root_stream f hdr = .ok (b, count) →
        rootDirGuard count hdr.root_stream.stream_size = true) ∧
    (∀ count root_size entry : ℕ,
        rootDirGuard count root_size = true → entry < count →
        streamDescOffset entry + 8 ≤ root_size) := by
  constructor
  · intro f hdr b count h
    unfold open_root_stream at h
    split at h
    · cases h
    · split at h
      · cases h
      · next out hr =>
        unfold rootFinish at h
        split at h
        · cases h
        · split at h
          · cases h
          · next hg =>
            injection h with h2
            have h3 : u16Buf out.buf 0 = count := congrArg Prod.snd h2
            rw [← h3]
            exact of_not_not hg
  · intro count root_size entry hg he
    simp only [rootDirGuard, decide_eq_true_eq] at hg
    unfold streamDescOffset
    omega

/-- Witness for C8: the reconstructed root of fileA (declared size 4,
    count 0) satisfies the guard, and a guard instance with count 2 and
    root size 100 bounds descriptor 1. -/
theorem c8_directory_guard_bounds_witness :
    (rootDirGuard rootA.2 4 = true) ∧
    (streamDescOffset 1 + 8 ≤ 100) :=
  ⟨c8_directory_guard_bounds.1 fileA hdrA rootA.1 rootA.2 rfl,
   c8_directory_guard_bounds.2 2 100 1 (by decide) (by decide)⟩

/-- C9 counterexample: the two editions do not compute the same per-stream
    page count for every declared size: at the free sentinel 0xFFFFFFFF with
    page size 1024 the C directory loop computes 4194304 pages while the C++
    one computes 0, because src/pdb_viewer.c only zeroes the count for size 0
    and has no sentinel check. -/
theorem c9_sentinel_page_count_counterexample :
    c_stream_pages 4294967295 1024 = 4194304 ∧
    cpp_stream_pages 4294967295 1024 = 0 ∧
    c_stream_pages 4294967295 1024 ≠ cpp_stream_pages 4294967295 1024 := by
  decide

/-- C9 (amended): the C and C++ directory loops compute the same per-stream
    page count for every declared size other than the 0xFFFFFFFF free
    sentinel and every page size; at the sentinel the C edition computes
    sentinel / page_size + 1 while the C++ edition computes 0. -/
theorem c9_editions_page_count_agree :
    ∀ s p : ℕ, s ≠ 4294967295 → c_stream_pages s p = cpp_stream_pages s p := by
  intro s p h
  by_cases h0 : s = 0 <;> simp [c_stream_pages, cpp_stream_pages, h0, h]

/-- Witness for C9 at size 2048 and page size 1024. -/
theorem c9_editions_page_count_agree_witness :
    (2048 ≠ 4294967295) ∧
    c_stream_pages 2048 1024 = cpp_stream_pages 2048 1024 :=
  ⟨by decide, c9_editions_page_count_agree 2048 1024 (by decide)⟩

/-- C10: a fresh session records version pdb_version_2 = 19941610 and the
    all-ones sentinel 65535 in the three symbol-stream indices; whenever the
    recorded version is not newer than pdb_version_4 = 19950623 (so in
    particular when stream 1 was absent, too small to record a version, or
    not yet processed), read_stream_dbi interprets the stream through the
    legacy 3-field header layout; and a too-small stream 1 leaves the
    recorded version untouched. -/
theorem c10_fresh_session_legacy_dbi :
    (initState.pdb_version = pdb_version_2 ∧ initState.gs_stream = 65535 ∧
      initState.ps_stream = 65535 ∧ initState.sym_stream = 65535) ∧
    (∀ (ssize : ℕ) (b : Buf) (st : SessionState),
        st.pdb_version ≤ pdb_version_4 →
        read_stream_dbi ssize b st = legacy_dbi_decode ssize b st) ∧
    (∀ (ssize : ℕ) (b : Buf) (st : SessionState), ssize < 12 →
        read_stream_pdb_header ssize b st = (st, [.pdbHeaderTooSmall])) ∧
    (initState.pdb_version ≤ pdb_version_4) := by
  refine ⟨by decide, ?_, ?_, by decide⟩
  · intro ssize b st h
    have h2 : ¬ (pdb_version_4 < st.pdb_version) := by
      unfold pdb_version_4 at h ⊢
      omega
    simp [read_stream_dbi, h2]
  · intro ssize b st h
    simp [read_stream_pdb_header, h]

/-- Witness for C10: the fresh session state sends a 6-byte DBI stream to the
    legacy decoder, and a 5-byte info stream is reported too small. -/
theorem c10_fresh_session_legacy_dbi_witness :
    (read_stream_dbi 6 zeroBuf initState = legacy_dbi_decode 6 zeroBuf initState) ∧
    (read_stream_pdb_header 5 zeroBuf initState =
      (initState, [.pdbHeaderTooSmall])) :=
  ⟨c10_fresh_session_legacy_dbi.2.1 6 zeroBuf initState (by decide),
   c10_fresh_session_legacy_dbi.2.2.1 5 zeroBuf initState (by decide)⟩
